import Mathlib

/-!
Shallow embedding of the pinocchio_native_amm program (src/lib.rs, src/state.rs,
src/instructions/{deposit,swap,withdraw,initialize}.rs) and proofs about its
specification claims.

Addresses are modelled as natural numbers; account data is modelled by the
fields the program actually reads (length, owner, token amount, mint supply,
the stored token mint, and the parsed pool config). Fallible Rust code
returning `Result<_, ProgramError>` is embedded as `Except ProgramError`.
External effects (token transfers, mints, burns, account creation) are
recorded as an effect trace.
-/

namespace Amm

/-- Errors of `pinocchio::error::ProgramError` that this program produces.
`Custom 0` is the expiration error; the spec labels these abstractly
(e.g. `AddressMismatch`, `SlippageViolation`) but the code maps them to
these concrete variants. -/
inductive ProgramError where
  | NotEnoughAccountKeys
  | MissingRequiredSignature
  | InvalidAccountData
  | InvalidAccountOwner
  | InvalidArgument
  | InvalidInstructionData
  | ArithmeticOverflow
  | Custom (n : Nat)
deriving DecidableEq, Repr

/-- Errors of the external constant_product_curve crate, modelled from the
spec (`SlippageViolation` for an output below the caller floor). -/
inductive CurveError where
  | SlippageLimitExceeded
  | Overflow
deriving DecidableEq, Repr

/-- The program's own id (`crate::ID` from `declare_id!`). -/
def crateID : Nat := 22

/-- The SPL token program id (`pinocchio_token::ID`). -/
def tokenProgramID : Nat := 100

/-- The associated-token-account program id
(`pinocchio_associated_token_account::ID`). -/
def ataProgramID : Nat := 101

/-- The system program id (`pinocchio_system::ID`). -/
def systemProgramID : Nat := 102

/-- `Config::LEN = size_of::<Config>()`: 1 + 8 + 32 + 32 + 32 + 2 + 1 bytes
of the packed struct in src/state.rs. -/
def configLen : Nat := 108

/-- `TokenAccount::LEN` of the SPL token ledger. -/
def tokenAccountLen : Nat := 165

/-- `Mint::LEN` of the SPL token ledger (82 bytes, also the literal used by
Initialize's CreateAccount for the LP mint). -/
def mintLen : Nat := 82

/-- `AmmState::Uninitialized as u8`. -/
def AmmStateUninit : Nat := 0

/-- `AmmState::Initialized as u8`. -/
def AmmStateActive : Nat := 1

/-- `AmmState::Disabled as u8`. -/
def AmmStateDisabled : Nat := 2

/-- `AmmState::WithdrawOnly as u8`. -/
def AmmStateWithdrawOnly : Nat := 3

/-- The pool configuration record of src/state.rs (`Config`), with the
little-endian byte fields already read back as numbers (as the getters
`seed()`, `fee()` do). -/
structure Config where
  state : Nat
  seed : Nat
  authority : Nat
  mint_x : Nat
  mint_y : Nat
  fee : Nat
  config_bump : Nat
deriving DecidableEq, Repr

/-- An account reference as the program observes it: its address, the
transaction-signer flag, data length, owning program, and the data fields
the program reads out of token/mint/config accounts. `tokenMint` is the
mint address recorded inside a token account's data; `tokenAmount` its
balance; `mintSupply` the supply field of a mint account; `cfg` the parsed
pool config when the account is a config account. -/
structure AccountView where
  address : Nat
  isSigner : Bool
  dataLen : Nat
  owner : Nat
  tokenMint : Nat
  tokenAmount : Nat
  mintSupply : Nat
  cfg : Config
deriving DecidableEq, Repr

/-- Modelled from the spec: the Address Deriver (§4.1),
`Address::find_program_address([config, token_program, mint], ata_program)`
as used for the vault addresses — an external pure one-way derivation, not
part of src/. Modelled as an abstract computable function of the three
seeds (the ata program id is fixed at every call site). -/
def deriveVault (config tokenProg mint : Nat) : Nat :=
  1000000007 + 31 * config + 37 * tokenProg + 41 * mint

/-- `Config::load` (src/state.rs): exact length check, owner check against
the program id, then reinterpret the account data as a `Config`. -/
def Config.load (a : AccountView) : Except ProgramError Config :=
  if a.dataLen ≠ configLen then .error .InvalidAccountData
  else if a.owner ≠ crateID then .error .InvalidAccountOwner
  else .ok a.cfg

/-- `Config::set_state` (src/state.rs): rejects any value ≥
`AmmState::WithdrawOnly` (3) leaving the record untouched, otherwise writes
the state. The pair returns the record after the call and the error, mirroring
`&mut self` plus `Result<()>`. -/
def Config.setState (c : Config) (s : Nat) : Config × Option ProgramError :=
  if s ≥ AmmStateWithdrawOnly then (c, some .InvalidAccountData)
  else ({ c with state := s }, none)

/-- `Config::set_fee` (src/state.rs): rejects fee ≥ 10000 leaving the record
untouched, otherwise writes the fee. -/
def Config.setFee (c : Config) (f : Nat) : Config × Option ProgramError :=
  if f ≥ 10000 then (c, some .InvalidAccountData)
  else ({ c with fee := f }, none)

/-- `Config::set_inner` (src/state.rs): set_state(Initialized)?, then seed,
authority, mint_x, mint_y, set_fee(fee)?, config_bump, with the partial
mutations preserved on a failing step, as the Rust `?` operator does. -/
def Config.setInner (c : Config) (seed authority mint_x mint_y fee bump : Nat) :
    Config × Option ProgramError :=
  match c.setState AmmStateActive with
  | (c1, some e) => (c1, some e)
  | (c1, none) =>
    let c2 := { c1 with seed := seed, authority := authority,
                        mint_x := mint_x, mint_y := mint_y }
    match c2.setFee fee with
    | (c3, some e) => (c3, some e)
    | (c3, none) => ({ c3 with config_bump := bump }, none)

/-- External calls the processors emit against the token ledger and the
account-creation service, recorded by address. -/
inductive Effect where
  | transfer (source dest authority amount : Nat)
  | mintTo (mint dest authority amount : Nat)
  | burn (source mint authority amount : Nat)
  | createAccount (source dest space owner : Nat)
  | initMint (mint decimals authority : Nat)
deriving DecidableEq, Repr

/-- Projection of a validation result to its accept/reject outcome: `none`
for success, `some e` for the error. -/
def outcome {α : Type} (r : Except ProgramError α) : Option ProgramError :=
  match r with
  | .ok _ => none
  | .error e => some e

/-! ## Instruction payload decoding (little-endian, densely packed) -/

/-- Value of a little-endian byte list. -/
def leBytes : List Nat → Nat
  | [] => 0
  | b :: bs => b + 256 * leBytes bs

/-- Read a little-endian u64 from 8 bytes at `off`. -/
def leU64 (bs : List Nat) (off : Nat) : Nat :=
  leBytes ((bs.drop off).take 8)

/-- Two's-complement reading of a u64 bit pattern as an i64. -/
def toI64 (u : Nat) : Int :=
  if u < 2 ^ 63 then (u : Int) else (u : Int) - 2 ^ 64

/-- The 8 little-endian bytes of `n` (mod 2^64). -/
def le8 (n : Nat) : List Nat :=
  [n % 256, n / 256 % 256, n / 65536 % 256, n / 16777216 % 256,
   n / 4294967296 % 256, n / 1099511627776 % 256,
   n / 281474976710656 % 256, n / 72057594037927936 % 256]

/-- `SwapInstructionData` (src/instructions/swap.rs). -/
structure SwapInstructionData where
  is_x : Bool
  amount : Nat
  min : Nat
  expiration : Int
deriving DecidableEq, Repr

/-- `SwapInstructionData::try_from` (src/instructions/swap.rs): exact
length 25 (1 + 8 + 8 + 8), then expiration check against the clock oracle
(`now`), then amount ≠ 0, then min ≠ 0. -/
def SwapInstructionData.tryFrom (now : Int) (data : List Nat) :
    Except ProgramError SwapInstructionData :=
  if data.length ≠ 25 then .error .InvalidInstructionData
  else
    let d : SwapInstructionData :=
      { is_x := data.getD 0 0 ≠ 0
        amount := leU64 data 1
        min := leU64 data 9
        expiration := toI64 (leU64 data 17) }
    if d.expiration ≠ 0 ∧ now > d.expiration then .error (.Custom 0)
    else if d.amount = 0 then .error .InvalidArgument
    else if d.min = 0 then .error .InvalidArgument
    else .ok d

/-- `DepositInstructionData` (src/instructions/deposit.rs). -/
structure DepositInstructionData where
  amount : Nat
  max_x : Nat
  max_y : Nat
  expiration : Int
deriving DecidableEq, Repr

/-- `DepositInstructionData::try_from` (src/instructions/deposit.rs): exact
length 32, amount ≠ 0, then the expiration check. No check on max_x/max_y. -/
def DepositInstructionData.tryFrom (now : Int) (data : List Nat) :
    Except ProgramError DepositInstructionData :=
  if data.length ≠ 32 then .error .InvalidInstructionData
  else
    let d : DepositInstructionData :=
      { amount := leU64 data 0
        max_x := leU64 data 8
        max_y := leU64 data 16
        expiration := toI64 (leU64 data 24) }
    if d.amount = 0 then .error .InvalidArgument
    else if d.expiration ≠ 0 ∧ now > d.expiration then .error (.Custom 0)
    else .ok d

/-- `WithdrawInstructionData` (src/instructions/withdraw.rs). -/
structure WithdrawInstructionData where
  amount : Nat
  min_x : Nat
  min_y : Nat
  expiration : Int
deriving DecidableEq, Repr

/-- `WithdrawInstructionData::try_from` (src/instructions/withdraw.rs):
exact length 32, amount ≠ 0, then the expiration check. min_x and min_y
are read but not validated. -/
def WithdrawInstructionData.tryFrom (now : Int) (data : List Nat) :
    Except ProgramError WithdrawInstructionData :=
  if data.length ≠ 32 then .error .InvalidInstructionData
  else
    let d : WithdrawInstructionData :=
      { amount := leU64 data 0
        min_x := leU64 data 8
        min_y := leU64 data 16
        expiration := toI64 (leU64 data 24) }
    if d.amount = 0 then .error .InvalidArgument
    else if d.expiration ≠ 0 ∧ now > d.expiration then .error (.Custom 0)
    else .ok d

/-! ## Account validators -/

/-- `SwapAccounts` (src/instructions/swap.rs). -/
structure SwapAccounts where
  user : AccountView
  user_x_ata : AccountView
  user_y_ata : AccountView
  vault_x : AccountView
  vault_y : AccountView
  config : AccountView
  token_program : AccountView
deriving DecidableEq, Repr

/-- `SwapAccounts::try_from` (src/instructions/swap.rs lines 39-93):
exactly 7 accounts; user signer; config length/owner; token program id;
then length/owner checks for user_x_ata, user_y_ata, vault_x, vault_y.
No vault address derivation is performed here. -/
def SwapAccounts.tryFrom (accounts : List AccountView) :
    Except ProgramError SwapAccounts :=
  match accounts with
  | [user, user_x_ata, user_y_ata, vault_x, vault_y, config, token_program] =>
    if !user.isSigner then .error .MissingRequiredSignature
    else if config.dataLen ≠ configLen then .error .InvalidAccountData
    else if config.owner ≠ crateID then .error .InvalidAccountOwner
    else if token_program.address ≠ tokenProgramID then .error .InvalidArgument
    else if user_x_ata.dataLen ≠ tokenAccountLen ∨
            user_x_ata.owner ≠ token_program.address then .error .InvalidAccountOwner
    else if user_y_ata.dataLen ≠ tokenAccountLen ∨
            user_y_ata.owner ≠ token_program.address then .error .InvalidAccountOwner
    else if vault_x.dataLen ≠ tokenAccountLen ∨
            vault_x.owner ≠ token_program.address then .error .InvalidAccountOwner
    else if vault_y.dataLen ≠ tokenAccountLen ∨
            vault_y.owner ≠ token_program.address then .error .InvalidAccountOwner
    else .ok ⟨user, user_x_ata, user_y_ata, vault_x, vault_y, config, token_program⟩
  | _ => .error .NotEnoughAccountKeys

/-- `DepositAccounts` (src/instructions/deposit.rs). -/
structure DepositAccounts where
  user : AccountView
  mint_lp : AccountView
  vault_x : AccountView
  vault_y : AccountView
  user_x_ata : AccountView
  user_y_ata : AccountView
  user_lp_ata : AccountView
  config : AccountView
  token_program : AccountView
deriving DecidableEq, Repr

/-- `DepositAccounts::try_from` (src/instructions/deposit.rs lines 41-112):
exactly 9 accounts; user signer; config length/owner; token program id;
`Config::load`; then the two vault address derivations compared byte-exact.
No length/owner check is performed on mint_lp, the vaults, or the user
token accounts (the source comment defers them). -/
def DepositAccounts.tryFrom (accounts : List AccountView) :
    Except ProgramError DepositAccounts :=
  match accounts with
  | [user, mint_lp, vault_x, vault_y, user_x_ata, user_y_ata, user_lp_ata,
     config, token_program] =>
    if !user.isSigner then .error .MissingRequiredSignature
    else if config.dataLen ≠ configLen then .error .InvalidAccountData
    else if config.owner ≠ crateID then .error .InvalidAccountOwner
    else if token_program.address ≠ tokenProgramID then .error .InvalidArgument
    else
      match Config.load config with
      | .error e => .error e
      | .ok cfg =>
        if deriveVault config.address token_program.address cfg.mint_x ≠
            vault_x.address then .error .InvalidAccountData
        else if deriveVault config.address token_program.address cfg.mint_y ≠
            vault_y.address then .error .InvalidAccountData
        else .ok ⟨user, mint_lp, vault_x, vault_y, user_x_ata, user_y_ata,
                  user_lp_ata, config, token_program⟩
  | _ => .error .NotEnoughAccountKeys

/-- `WithdrawAccounts` (src/instructions/withdraw.rs). -/
structure WithdrawAccounts where
  user : AccountView
  mint_lp : AccountView
  vault_x : AccountView
  vault_y : AccountView
  user_x_ata : AccountView
  user_y_ata : AccountView
  user_lp_ata : AccountView
  config : AccountView
  token_program : AccountView
deriving DecidableEq, Repr

/-- `WithdrawAccounts::try_from` (src/instructions/withdraw.rs lines 39-136):
exactly 9 accounts; user signer; config length/owner; token program id;
mint_lp length/owner; `Config::load`; the two vault address derivations;
then length/owner checks on vault_x, vault_y, user_x_ata, user_y_ata,
user_lp_ata. -/
def WithdrawAccounts.tryFrom (accounts : List AccountView) :
    Except ProgramError WithdrawAccounts :=
  match accounts with
  | [user, mint_lp, vault_x, vault_y, user_x_ata, user_y_ata, user_lp_ata,
     config, token_program] =>
    if !user.isSigner then .error .MissingRequiredSignature
    else if config.dataLen ≠ configLen then .error .InvalidAccountData
    else if config.owner ≠ crateID then .error .InvalidAccountOwner
    else if token_program.address ≠ tokenProgramID then .error .InvalidArgument
    else if mint_lp.dataLen ≠ mintLen ∨
            mint_lp.owner ≠ token_program.address then .error .InvalidAccountData
    else
      match Config.load config with
      | .error e => .error e
      | .ok cfg =>
        if deriveVault config.address token_program.address cfg.mint_x ≠
            vault_x.address then .error .InvalidAccountData
        else if deriveVault config.address token_program.address cfg.mint_y ≠
            vault_y.address then .error .InvalidAccountData
        else if vault_x.dataLen ≠ tokenAccountLen ∨
            vault_x.owner ≠ token_program.address then .error .InvalidAccountOwner
        else if vault_y.dataLen ≠ tokenAccountLen ∨
            vault_y.owner ≠ token_program.address then .error .InvalidAccountOwner
        else if user_x_ata.dataLen ≠ tokenAccountLen ∨
            user_x_ata.owner ≠ token_program.address then .error .InvalidAccountOwner
        else if user_y_ata.dataLen ≠ tokenAccountLen ∨
            user_y_ata.owner ≠ token_program.address then .error .InvalidAccountOwner
        else if user_lp_ata.dataLen ≠ tokenAccountLen ∨
            user_lp_ata.owner ≠ token_program.address then .error .InvalidAccountOwner
        else .ok ⟨user, mint_lp, vault_x, vault_y, user_x_ata, user_y_ata,
                  user_lp_ata, config, token_program⟩
  | _ => .error .NotEnoughAccountKeys

/-! ## Curve engine

The constant-product math lives in the external `constant_product_curve`
crate, which is not part of src/; the definitions below are modelled from
the spec (§4.5). -/

/-- Modelled from the spec: the swap quote of the external
constant_product_curve crate (`ConstantProduct::swap`), not in src/.
Fee applied to the input, `amount_in_after_fee = amount_in * (10000 -
fee_bps) / 10000` (integer floor); output `reserve_out *
amount_in_after_fee / (reserve_in + amount_in_after_fee)`. Returns the
(fee-truncated) deposit amount and the computed withdraw amount. -/
def swapQuote (reserveIn reserveOut amountIn feeBps : Nat) : Nat × Nat :=
  let aiaf := amountIn * (10000 - feeBps) / 10000
  (aiaf, reserveOut * aiaf / (reserveIn + aiaf))

/-- Modelled from the spec: the crate's `swap` additionally enforces the
caller's slippage floor — output below `min` is a slippage failure. -/
def curveSwap (reserveIn reserveOut amountIn feeBps min : Nat) :
    Except CurveError (Nat × Nat) :=
  let q := swapQuote reserveIn reserveOut amountIn feeBps
  if q.2 < min then .error .SlippageLimitExceeded else .ok q

/-- Modelled from the spec:
`ConstantProduct::xy_withdraw_amounts_from_l(x, y, supply, amount,
precision)` of the external crate, not in src/ — amounts computed pro-rata
from current reserves and total LP supply, with a fixed decimal precision
for the intermediate liquidity ratio (floor integer arithmetic). -/
def xyWithdrawAmountsFromL (x y supply amount precision : Nat) :
    Except CurveError (Nat × Nat) :=
  if supply = 0 then .error .Overflow
  else
    let ratio := amount * 10 ^ precision / supply
    .ok (x * ratio / 10 ^ precision, y * ratio / 10 ^ precision)

/-! ## Swap processor -/

/-- `Swap` (src/instructions/swap.rs). -/
structure Swap where
  accounts : SwapAccounts
  instruction_data : SwapInstructionData
deriving DecidableEq, Repr

/-- `Swap::try_from((data, accounts))`: accounts first, then the payload. -/
def Swap.tryFrom (now : Int) (data : List Nat) (accounts : List AccountView) :
    Except ProgramError Swap :=
  match SwapAccounts.tryFrom accounts with
  | .error e => .error e
  | .ok a =>
    match SwapInstructionData.tryFrom now data with
    | .error e => .error e
    | .ok d => .ok ⟨a, d⟩

/-- The curve computation of `Swap::process` steps 3-5 (src/instructions/
swap.rs lines 193-220): direction selected by `is_x`, curve errors mapped to
`InvalidArgument`, then the zero deposit / zero withdraw rejection. -/
def swapCompute (vxAmount vyAmount fee : Nat) (d : SwapInstructionData) :
    Except ProgramError (Nat × Nat) :=
  let reserveIn := if d.is_x then vxAmount else vyAmount
  let reserveOut := if d.is_x then vyAmount else vxAmount
  match curveSwap reserveIn reserveOut d.amount fee d.min with
  | .error _ => .error .InvalidArgument
  | .ok q => if q.1 = 0 ∨ q.2 = 0 then .error .InvalidArgument else .ok q

/-- `Swap::process` (src/instructions/swap.rs lines 178-280): read the
vault balances, load the config, require state Initialized, run the curve,
then emit the two transfers in the direction chosen by `is_x`. -/
def Swap.process (a : SwapAccounts) (d : SwapInstructionData) :
    Except ProgramError (List Effect) :=
  match Config.load a.config with
  | .error e => .error e
  | .ok cfg =>
    if cfg.state ≠ AmmStateActive then .error .InvalidAccountData
    else
      match swapCompute a.vault_x.tokenAmount a.vault_y.tokenAmount cfg.fee d with
      | .error e => .error e
      | .ok q =>
        if d.is_x then
          .ok [.transfer a.user_x_ata.address a.vault_x.address a.user.address q.1,
               .transfer a.vault_y.address a.user_y_ata.address a.config.address q.2]
        else
          .ok [.transfer a.user_y_ata.address a.vault_y.address a.user.address q.1,
               .transfer a.vault_x.address a.user_x_ata.address a.config.address q.2]

/-- Dispatch of a Swap instruction: validate, then process. -/
def Swap.run (now : Int) (data : List Nat) (accounts : List AccountView) :
    Except ProgramError (List Effect) :=
  match Swap.tryFrom now data accounts with
  | .error e => .error e
  | .ok s => Swap.process s.accounts s.instruction_data

/-! ## Deposit processor -/

/-- `Deposit` (src/instructions/deposit.rs). -/
structure Deposit where
  accounts : DepositAccounts
  instruction_data : DepositInstructionData
deriving DecidableEq, Repr

/-- `Deposit::try_from((data, accounts))` (src/instructions/deposit.rs
lines 169-190): accounts, payload, then `Config::load_mut` and the state
gate `state == Initialized`. -/
def Deposit.tryFrom (now : Int) (data : List Nat) (accounts : List AccountView) :
    Except ProgramError Deposit :=
  match DepositAccounts.tryFrom accounts with
  | .error e => .error e
  | .ok a =>
    match DepositInstructionData.tryFrom now data with
    | .error e => .error e
    | .ok d =>
      match Config.load a.config with
      | .error e => .error e
      | .ok cfg =>
        if cfg.state ≠ AmmStateActive then .error .InvalidAccountData
        else .ok ⟨a, d⟩

/-- `Deposit::process` (src/instructions/deposit.rs lines 199-253):
transfer max_x if positive, transfer max_y if positive, then (if the LP
amount is positive) load the config for the signing seeds and mint the LP
amount to the user. -/
def Deposit.process (a : DepositAccounts) (d : DepositInstructionData) :
    Except ProgramError (List Effect) :=
  let t1 := if d.max_x > 0 then
    [Effect.transfer a.user_x_ata.address a.vault_x.address a.user.address d.max_x]
    else []
  let t2 := if d.max_y > 0 then
    [Effect.transfer a.user_y_ata.address a.vault_y.address a.user.address d.max_y]
    else []
  if d.amount > 0 then
    match Config.load a.config with
    | .error e => .error e
    | .ok _ =>
      .ok (t1 ++ t2 ++
        [Effect.mintTo a.mint_lp.address a.user_lp_ata.address a.config.address d.amount])
  else .ok (t1 ++ t2)

/-! ## Withdraw processor -/

/-- The withdraw quote as computed during construction/validation
(src/instructions/withdraw.rs lines 200-221): burning the entire LP supply
returns the two vault balances exactly; otherwise
`xy_withdraw_amounts_from_l` with precision 6, curve errors mapped to
`InvalidArgument`. -/
def withdrawQuoteV (vxAmount vyAmount supply amount : Nat) :
    Except ProgramError (Nat × Nat) :=
  if supply = amount then .ok (vxAmount, vyAmount)
  else
    match xyWithdrawAmountsFromL vxAmount vyAmount supply amount 6 with
    | .error _ => .error .InvalidArgument
    | .ok p => .ok p

/-- The withdraw quote as recomputed at execution time
(src/instructions/withdraw.rs lines 244-263), transcribed from that second
site: same full-supply branch, same curve call with precision 6, same error
mapping. -/
def withdrawQuoteP (vxAmount vyAmount supply amount : Nat) :
    Except ProgramError (Nat × Nat) :=
  if supply = amount then .ok (vxAmount, vyAmount)
  else
    match xyWithdrawAmountsFromL vxAmount vyAmount supply amount 6 with
    | .error _ => .error .InvalidArgument
    | .ok p => .ok p

/-- `Withdraw` (src/instructions/withdraw.rs). -/
structure Withdraw where
  accounts : WithdrawAccounts
  instruction_data : WithdrawInstructionData
deriving DecidableEq, Repr

/-- `Withdraw::try_from((data, accounts))` (src/instructions/withdraw.rs
lines 192-234): accounts, payload, the quote from the observed mint supply
and vault balances, then the slippage floor check
`x >= min_x && y >= min_y` (else `InvalidArgument`). No state gate. -/
def Withdraw.tryFrom (now : Int) (data : List Nat) (accounts : List AccountView) :
    Except ProgramError Withdraw :=
  match WithdrawAccounts.tryFrom accounts with
  | .error e => .error e
  | .ok a =>
    match WithdrawInstructionData.tryFrom now data with
    | .error e => .error e
    | .ok d =>
      match withdrawQuoteV a.vault_x.tokenAmount a.vault_y.tokenAmount
          a.mint_lp.mintSupply d.amount with
      | .error e => .error e
      | .ok q =>
        if q.1 ≥ d.min_x ∧ q.2 ≥ d.min_y then .ok ⟨a, d⟩
        else .error .InvalidArgument

/-- `Withdraw::process` (src/instructions/withdraw.rs lines 243-312):
recompute the quote from the same observed accounts, burn the LP amount,
load the config for signing seeds, then transfer x and y (each only when
positive) from the vaults to the user. -/
def Withdraw.process (a : WithdrawAccounts) (d : WithdrawInstructionData) :
    Except ProgramError (List Effect) :=
  match withdrawQuoteP a.vault_x.tokenAmount a.vault_y.tokenAmount
      a.mint_lp.mintSupply d.amount with
  | .error e => .error e
  | .ok q =>
    match Config.load a.config with
    | .error e => .error e
    | .ok _ =>
      .ok ([Effect.burn a.user_lp_ata.address a.mint_lp.address a.user.address d.amount] ++
        (if q.1 > 0 then
          [Effect.transfer a.vault_x.address a.user_x_ata.address a.config.address q.1]
         else []) ++
        (if q.2 > 0 then
          [Effect.transfer a.vault_y.address a.user_y_ata.address a.config.address q.2]
         else []))

/-! ## Initialize processor (named InitPool here) -/

/-- `InitializeInstructionData` (src/instructions/initialize.rs), with the
optional trailing authority already zero-filled when absent. -/
structure InitPoolData where
  seed : Nat
  fee : Nat
  mint_x : Nat
  mint_y : Nat
  config_bump : Nat
  lp_bump : Nat
  authority : Nat
deriving DecidableEq, Repr

/-- `Initialize::process` (src/instructions/initialize.rs lines 164-245):
create the config account (owner = this program, size `Config::LEN`),
write the record via `set_inner` over whatever bytes the fresh account
holds (`prior`), create the LP mint account (owner = token program, 82
bytes), and initialize it as a 6-decimal mint with the config address as
mint authority. The prior state of the config record is never read. -/
def initPoolProcess (initrAddr cfgAddr mintLpAddr : Nat) (prior : Config)
    (d : InitPoolData) : Except ProgramError (Config × List Effect) :=
  let created := Effect.createAccount initrAddr cfgAddr configLen crateID
  match Config.setInner prior d.seed d.authority d.mint_x d.mint_y d.fee
      d.config_bump with
  | (_, some e) => .error e
  | (c, none) =>
    .ok (c, [created,
      Effect.createAccount initrAddr mintLpAddr mintLen tokenProgramID,
      Effect.initMint mintLpAddr 6 cfgAddr])

/-! ## Concrete fixtures used in scenario theorems, counterexamples and
witnesses -/

/-- An all-zero config record (the data field of non-config accounts). -/
def cfg0 : Config := ⟨0, 0, 0, 0, 0, 0, 0⟩

/-- An initialized pool config: seed 9, no authority, mint_x 7, mint_y 8,
fee 30 bps, bump 254. -/
def cfgEx : Config := ⟨AmmStateActive, 9, 0, 7, 8, 30, 254⟩

/-- The acting user: a transaction signer. -/
def userEx : AccountView := ⟨11, true, 0, 0, 0, 0, 0, cfg0⟩

/-- The token program account. -/
def tokenProgAcct : AccountView := ⟨tokenProgramID, false, 0, 0, 0, 0, 0, cfg0⟩

/-- A well-formed config account at address 50 holding `cfgEx`. -/
def configAcct : AccountView := ⟨50, false, configLen, crateID, 0, 0, 0, cfgEx⟩

/-- The same config account but with the pool disabled. -/
def configDisabledAcct : AccountView :=
  ⟨50, false, configLen, crateID, 0, 0, 0, { cfgEx with state := AmmStateDisabled }⟩

/-- Vault for mint_x at its derived address, holding 1,000,000 tokens. -/
def vaultXAcct : AccountView :=
  ⟨deriveVault 50 tokenProgramID 7, false, tokenAccountLen, tokenProgramID,
   7, 1000000, 0, cfg0⟩

/-- Vault for mint_y at its derived address, holding 1,000,000 tokens. -/
def vaultYAcct : AccountView :=
  ⟨deriveVault 50 tokenProgramID 8, false, tokenAccountLen, tokenProgramID,
   8, 1000000, 0, cfg0⟩

/-- The user's token-X account. -/
def userXAcct : AccountView :=
  ⟨61, false, tokenAccountLen, tokenProgramID, 7, 500000, 0, cfg0⟩

/-- The user's token-Y account. -/
def userYAcct : AccountView :=
  ⟨62, false, tokenAccountLen, tokenProgramID, 8, 500000, 0, cfg0⟩

/-- The user's LP token account. -/
def userLpAcct : AccountView :=
  ⟨63, false, tokenAccountLen, tokenProgramID, 70, 40, 0, cfg0⟩

/-- The LP mint account at address 70 with outstanding supply 100. -/
def mintLpAcct : AccountView := ⟨70, false, mintLen, tokenProgramID, 0, 0, 100, cfg0⟩

/-- A token-X vault impostor: correct length and owner but address 5, which
is not the derived vault address. -/
def vaultBadAddr : AccountView :=
  ⟨5, false, tokenAccountLen, tokenProgramID, 7, 1000000, 0, cfg0⟩

/-- A user token account with a wrong data length (3) and a wrong owner
(999). -/
def ataBadShape : AccountView := ⟨61, false, 3, 999, 7, 500000, 0, cfg0⟩

/-- A well-formed Swap account list. -/
def swapAcctList : List AccountView :=
  [userEx, userXAcct, userYAcct, vaultXAcct, vaultYAcct, configAcct, tokenProgAcct]

/-- A Swap account list whose vault_x has a non-derived address. -/
def swapBadVaultList : List AccountView :=
  [userEx, userXAcct, userYAcct, vaultBadAddr, vaultYAcct, configAcct, tokenProgAcct]

/-- A well-formed Withdraw account list. -/
def withdrawAcctList : List AccountView :=
  [userEx, mintLpAcct, vaultXAcct, vaultYAcct, userXAcct, userYAcct, userLpAcct,
   configAcct, tokenProgAcct]

/-- A well-formed Deposit account list. -/
def depositAcctList : List AccountView :=
  [userEx, mintLpAcct, vaultXAcct, vaultYAcct, userXAcct, userYAcct, userLpAcct,
   configAcct, tokenProgAcct]

/-- A Deposit account list whose user_x_ata has a wrong length and owner. -/
def depositBadShapeList : List AccountView :=
  [userEx, mintLpAcct, vaultXAcct, vaultYAcct, ataBadShape, userYAcct, userLpAcct,
   configAcct, tokenProgAcct]

/-- A Deposit account list whose config is in the Disabled state. -/
def depositDisabledList : List AccountView :=
  [userEx, mintLpAcct, vaultXAcct, vaultYAcct, userXAcct, userYAcct, userLpAcct,
   configDisabledAcct, tokenProgAcct]

/-- A 32-byte Deposit/Withdraw payload from its four 8-byte fields. -/
def payload32 (a b c d : Nat) : List Nat := le8 a ++ le8 b ++ le8 c ++ le8 d

/-- A 25-byte Swap payload from the flag byte and the three 8-byte fields. -/
def sPayload (b amount m e : Nat) : List Nat := b :: (le8 amount ++ le8 m ++ le8 e)

/-! ## Helper lemmas -/

/-- Pushing `outcome` through an if-then-else. -/
theorem outcome_ite {α : Type} (P : Prop) [Decidable P] (a b : Except ProgramError α) :
    outcome (if P then a else b) = if P then outcome a else outcome b := by
  by_cases h : P <;> simp [h]

/-- `outcome` of a success is `none`. -/
theorem outcome_ok {α : Type} (a : α) :
    outcome (Except.ok a : Except ProgramError α) = none := rfl

/-- `outcome` of a failure is the error. -/
theorem outcome_error {α : Type} (e : ProgramError) :
    outcome (Except.error e : Except ProgramError α) = some e := rfl

/-- Post-trade product bound for the floor-division swap quote: with
`s = reserve_in + aiaf` and `out = reserve_out * aiaf / s`,
`s * (reserve_out - out) ≥ reserve_in * reserve_out`. -/
theorem swap_product_bound (rin rout aiaf : Nat) :
    rin * rout ≤ (rin + aiaf) * (rout - rout * aiaf / (rin + aiaf)) := by
  have h1 : rout * aiaf / (rin + aiaf) * (rin + aiaf) ≤ rout * aiaf :=
    Nat.div_mul_le_self _ _
  have h3 : rout * (rin + aiaf) = rout * rin + rout * aiaf := Nat.mul_add _ _ _
  have h4 : rout * (rin + aiaf) - rout * aiaf / (rin + aiaf) * (rin + aiaf) =
      (rout - rout * aiaf / (rin + aiaf)) * (rin + aiaf) :=
    (Nat.sub_mul _ _ _).symm
  calc rin * rout = rout * rin := Nat.mul_comm _ _
    _ ≤ rout * (rin + aiaf) - rout * aiaf / (rin + aiaf) * (rin + aiaf) := by omega
    _ = (rout - rout * aiaf / (rin + aiaf)) * (rin + aiaf) := h4
    _ = (rin + aiaf) * (rout - rout * aiaf / (rin + aiaf)) := Nat.mul_comm _ _

/-- A failure is never a success. -/
theorem err_ne_ok {α : Type} (e : ProgramError) (a : α) :
    (Except.error e = Except.ok a) = False := by simp

/-- Successful `Config::load` returns the account's config and certifies
the length and owner checks. -/
theorem Config.load_ok {a : AccountView} {cfg : Config} (h : Config.load a = .ok cfg) :
    cfg = a.cfg ∧ a.dataLen = configLen ∧ a.owner = crateID := by
  unfold Config.load at h
  split at h
  · simp at h
  · split at h
    · simp at h
    · simp_all

/-- Loading a config account whose stored state was replaced: same checks,
the returned record differs only in the state field. -/
theorem Config.load_state (c : AccountView) (s : Nat) :
    Config.load { c with cfg := { c.cfg with state := s } } =
    (Config.load c).map (fun cfg => { cfg with state := s }) := by
  unfold Config.load
  by_cases h1 : c.dataLen ≠ configLen
  · simp [h1, Except.map]
  · by_cases h2 : c.owner ≠ crateID <;> simp [h1, h2, Except.map]

/-! ## Claim theorems -/

/-- C6: the Withdraw payout computation performed at validation time and
the one performed again at execution time are the same pure function of
the observed inputs (vault_x balance, vault_y balance, LP supply, burn
amount): on equal inputs both return the same result. -/
theorem C6_withdraw_quote_pure : ∀ vxAmount vyAmount supply amount : Nat,
    withdrawQuoteV vxAmount vyAmount supply amount =
    withdrawQuoteP vxAmount vyAmount supply amount :=
  fun _ _ _ _ => rfl

/-- C9: `set_state s` succeeds exactly when `s < WithdrawOnly (3)` and
leaves the record unchanged on rejection, so the setter can only produce
states other than WithdrawOnly; `set_fee f` succeeds exactly when
`f < 10000` (hence 9999 succeeds, 10000 and above fail) and leaves the
record unchanged on rejection. -/
theorem C9_config_setters :
    (∀ (c : Config) (s : Nat),
      ((c.setState s).2 = none ↔ s < AmmStateWithdrawOnly) ∧
      ((c.setState s).2 ≠ none → (c.setState s).1 = c) ∧
      ((c.setState s).2 = none →
        (c.setState s).1.state = s ∧ (c.setState s).1.state ≠ AmmStateWithdrawOnly)) ∧
    (∀ (c : Config) (f : Nat),
      ((c.setFee f).2 = none ↔ f < 10000) ∧
      ((c.setFee f).2 ≠ none → (c.setFee f).1 = c)) ∧
    (∀ c : Config, (c.setFee 9999).2 = none) ∧
    (∀ (c : Config) (f : Nat), 10000 ≤ f → (c.setFee f).2 = some .InvalidAccountData) := by
  refine ⟨fun c s => ?_, fun c f => ?_, fun c => ?_, fun c f h => ?_⟩
  · unfold Config.setState
    split <;> (refine ⟨?_, ?_, ?_⟩ <;> simp_all [AmmStateWithdrawOnly] <;> omega)
  · unfold Config.setFee
    split <;> (refine ⟨?_, ?_⟩ <;> simp_all <;> omega)
  · unfold Config.setFee; simp
  · unfold Config.setFee; simp [h]

/-- C9 witness: the setters evaluated at state 3 (rejected, record kept)
and at fees 9999 (accepted) and 10000 (rejected). -/
theorem C9_config_setters_witness :
    (Config.setState cfg0 3).1 = cfg0 ∧
    (Config.setState cfg0 2).1.state = 2 ∧
    (Config.setState cfg0 2).1.state ≠ AmmStateWithdrawOnly ∧
    (Config.setFee cfg0 9999).2 = none ∧
    (Config.setFee cfg0 10000).2 = some .InvalidAccountData := by
  have h := C9_config_setters
  refine ⟨h.1 cfg0 3 |>.2.1 (by decide), ?_, ?_, h.2.2.1 cfg0,
          h.2.2.2 cfg0 10000 (by decide)⟩
  · exact (h.1 cfg0 2 |>.2.2 (by decide)).1
  · exact (h.1 cfg0 2 |>.2.2 (by decide)).2

/-- C10: for Deposit, Withdraw, and Swap, account validation never reads
the mint recorded inside the user's token accounts: two account lists that
differ only in the stored mint field of user_x_ata, user_y_ata (and
user_lp_ata where present) validate to the same outcome. -/
theorem C10_validation_ignores_user_token_mints :
    (∀ u ax ay vx vy c tp m1 m2,
      outcome (SwapAccounts.tryFrom
        [u, { ax with tokenMint := m1 }, { ay with tokenMint := m2 }, vx, vy, c, tp]) =
      outcome (SwapAccounts.tryFrom [u, ax, ay, vx, vy, c, tp])) ∧
    (∀ u lp vx vy ax ay alp c tp m1 m2 m3,
      outcome (DepositAccounts.tryFrom
        [u, lp, vx, vy, { ax with tokenMint := m1 }, { ay with tokenMint := m2 },
         { alp with tokenMint := m3 }, c, tp]) =
      outcome (DepositAccounts.tryFrom [u, lp, vx, vy, ax, ay, alp, c, tp])) ∧
    (∀ u lp vx vy ax ay alp c tp m1 m2 m3,
      outcome (WithdrawAccounts.tryFrom
        [u, lp, vx, vy, { ax with tokenMint := m1 }, { ay with tokenMint := m2 },
         { alp with tokenMint := m3 }, c, tp]) =
      outcome (WithdrawAccounts.tryFrom [u, lp, vx, vy, ax, ay, alp, c, tp])) := by
  refine ⟨fun u ax ay vx vy c tp m1 m2 => ?_,
          fun u lp vx vy ax ay alp c tp m1 m2 m3 => ?_,
          fun u lp vx vy ax ay alp c tp m1 m2 m3 => ?_⟩
  · simp only [SwapAccounts.tryFrom]
    simp only [outcome_ite, outcome_ok, outcome_error]
  · simp only [DepositAccounts.tryFrom]
    cases hc : Config.load c <;>
      simp only [hc, outcome_ite, outcome_ok, outcome_error]
  · simp only [WithdrawAccounts.tryFrom]
    cases hc : Config.load c <;>
      simp only [hc, outcome_ite, outcome_ok, outcome_error]

/-- C1: the swap quote equals `reserve_out * aiaf / (reserve_in + aiaf)`
with `aiaf = amount_in * (10000 - fee_bps) / 10000` in floor integer
arithmetic; the post-trade product `(reserve_in + aiaf) * (reserve_out -
out)` is at least `reserve_in * reserve_out`; a zero (fee-truncated)
deposit or zero output makes `Swap::process` fail; and on reserves
(1,000,000, 1,000,000) with fee 30 bps and amount_in 10,000 of X the
output is 9,871, so min 9,872 fails with the curve's slippage error
(surfaced as `InvalidArgument`) and min 9,871 succeeds. -/
theorem C1_swap_quote_invariant_and_scenario :
    (∀ reserveIn reserveOut amountIn feeBps : Nat,
      0 < reserveIn → 0 < reserveOut → 0 < amountIn → feeBps < 10000 →
      swapQuote reserveIn reserveOut amountIn feeBps =
        (amountIn * (10000 - feeBps) / 10000,
         reserveOut * (amountIn * (10000 - feeBps) / 10000) /
           (reserveIn + amountIn * (10000 - feeBps) / 10000)) ∧
      reserveIn * reserveOut ≤
        (reserveIn + (swapQuote reserveIn reserveOut amountIn feeBps).1) *
        (reserveOut - (swapQuote reserveIn reserveOut amountIn feeBps).2)) ∧
    (∀ (vxAmount vyAmount fee : Nat) (d : SwapInstructionData),
      ((swapQuote (if d.is_x then vxAmount else vyAmount)
          (if d.is_x then vyAmount else vxAmount) d.amount fee).1 = 0 ∨
       (swapQuote (if d.is_x then vxAmount else vyAmount)
          (if d.is_x then vyAmount else vxAmount) d.amount fee).2 = 0) →
      swapCompute vxAmount vyAmount fee d = .error .InvalidArgument) ∧
    curveSwap 1000000 1000000 10000 30 9872 = .error .SlippageLimitExceeded ∧
    Swap.run 0 (sPayload 1 10000 9872 0) swapAcctList = .error .InvalidArgument ∧
    Swap.run 0 (sPayload 1 10000 9871 0) swapAcctList =
      .ok [.transfer userXAcct.address vaultXAcct.address userEx.address 9970,
           .transfer vaultYAcct.address userYAcct.address configAcct.address 9871] ∧
    swapQuote 1000000 1000000 10000 30 = (9970, 9871) := by
  refine ⟨fun rin rout ain fee h1 h2 h3 h4 => ⟨rfl, swap_product_bound _ _ _⟩,
          fun vxAmount vyAmount fee d h => ?_, by rfl, by rfl, by rfl, by decide⟩
  cases hx : d.is_x <;>
    simp only [hx, if_true, if_false, Bool.false_eq_true] at h <;>
    simp only [swapCompute, curveSwap, hx, if_true, if_false, Bool.false_eq_true] <;>
    split <;> try rfl
  all_goals rename_i x q heq
  all_goals split at heq <;> simp_all <;> omega

/-- C1 witness: the quantified parts instantiated at the concrete scenario
and at reserves (1,000,000, 0) where the computed output is zero. -/
theorem C1_swap_witness :
    swapQuote 1000000 1000000 10000 30 =
      (10000 * (10000 - 30) / 10000,
       1000000 * (10000 * (10000 - 30) / 10000) /
         (1000000 + 10000 * (10000 - 30) / 10000)) ∧
    1000000 * 1000000 ≤
      (1000000 + (swapQuote 1000000 1000000 10000 30).1) *
      (1000000 - (swapQuote 1000000 1000000 10000 30).2) ∧
    swapCompute 1000000 0 30 ⟨true, 5, 0, 0⟩ = .error .InvalidArgument := by
  have h1 := C1_swap_quote_invariant_and_scenario.1 1000000 1000000 10000 30
    (by decide) (by decide) (by decide) (by decide)
  have h2 := C1_swap_quote_invariant_and_scenario.2.1 1000000 0 30
    ⟨true, 5, 0, 0⟩ (by decide)
  exact ⟨h1.1, h1.2, h2⟩

/-- C2: when the LP amount to burn equals the entire outstanding supply,
the withdraw quote is exactly the full current vault balances; when
`0 < amount < supply` it is pro-rata with fixed decimal precision 6; and
`Withdraw::try_from` succeeds iff the quoted `(x, y)` meet the caller's
floors `min_x`, `min_y`, failing with the slippage error (surfaced as
`InvalidArgument`) otherwise. -/
theorem C2_withdraw_quote :
    (∀ vxAmount vyAmount supply amount : Nat, supply = amount →
      withdrawQuoteV vxAmount vyAmount supply amount = .ok (vxAmount, vyAmount)) ∧
    (∀ vxAmount vyAmount supply amount : Nat, 0 < amount → amount < supply →
      withdrawQuoteV vxAmount vyAmount supply amount =
        .ok (vxAmount * (amount * 10 ^ 6 / supply) / 10 ^ 6,
             vyAmount * (amount * 10 ^ 6 / supply) / 10 ^ 6)) ∧
    (∀ (now : Int) (data : List Nat) (accounts : List AccountView)
        (a : WithdrawAccounts) (d : WithdrawInstructionData) (q : Nat × Nat),
      WithdrawAccounts.tryFrom accounts = .ok a →
      WithdrawInstructionData.tryFrom now data = .ok d →
      withdrawQuoteV a.vault_x.tokenAmount a.vault_y.tokenAmount
        a.mint_lp.mintSupply d.amount = .ok q →
      ((d.min_x ≤ q.1 ∧ d.min_y ≤ q.2) →
        Withdraw.tryFrom now data accounts = .ok ⟨a, d⟩) ∧
      (¬(d.min_x ≤ q.1 ∧ d.min_y ≤ q.2) →
        Withdraw.tryFrom now data accounts = .error .InvalidArgument)) := by
  refine ⟨fun vx vy s a h => by simp [withdrawQuoteV, h],
          fun vx vy s a h1 h2 => ?_,
          fun now data accounts a d q h1 h2 h3 => ?_⟩
  · unfold withdrawQuoteV xyWithdrawAmountsFromL
    rw [if_neg (by omega), if_neg (by omega)]
  · unfold Withdraw.tryFrom
    simp only [h1, h2, h3]
    constructor
    · intro hq
      rw [if_pos (by exact ⟨hq.1, hq.2⟩)]
    · intro hq
      rw [if_neg (by exact fun hc => hq ⟨hc.1, hc.2⟩)]

/-- C2 witness: full-supply burn returns the whole reserves; a 10% burn of
supply 100 on reserves (1,000,000, 1,000,000) is pro-rata; floors (1, 1)
succeed and floor `min_x = 200000` fails. -/
theorem C2_withdraw_witness :
    withdrawQuoteV 1000000 1000000 100 100 = .ok (1000000, 1000000) ∧
    withdrawQuoteV 1000000 1000000 100 10 =
      .ok (1000000 * (10 * 10 ^ 6 / 100) / 10 ^ 6,
           1000000 * (10 * 10 ^ 6 / 100) / 10 ^ 6) ∧
    Withdraw.tryFrom 0 (payload32 10 1 1 0) withdrawAcctList =
      .ok ⟨⟨userEx, mintLpAcct, vaultXAcct, vaultYAcct, userXAcct, userYAcct,
            userLpAcct, configAcct, tokenProgAcct⟩, ⟨10, 1, 1, 0⟩⟩ ∧
    Withdraw.tryFrom 0 (payload32 10 200000 1 0) withdrawAcctList =
      .error .InvalidArgument := by
  have hfull := C2_withdraw_quote.1 1000000 1000000 100 100 rfl
  have hpro := C2_withdraw_quote.2.1 1000000 1000000 100 10 (by decide) (by decide)
  have hok := (C2_withdraw_quote.2.2 0 (payload32 10 1 1 0) withdrawAcctList
      ⟨userEx, mintLpAcct, vaultXAcct, vaultYAcct, userXAcct, userYAcct,
       userLpAcct, configAcct, tokenProgAcct⟩ ⟨10, 1, 1, 0⟩ (100000, 100000)
      (by rfl) (by rfl) (by rfl)).1 (by decide)
  have herr := (C2_withdraw_quote.2.2 0 (payload32 10 200000 1 0) withdrawAcctList
      ⟨userEx, mintLpAcct, vaultXAcct, vaultYAcct, userXAcct, userYAcct,
       userLpAcct, configAcct, tokenProgAcct⟩ ⟨10, 200000, 1, 0⟩ (100000, 100000)
      (by rfl) (by rfl) (by rfl)).2 (by decide)
  exact ⟨hfull, hpro, hok, herr⟩

/-- C3 counterexample: Swap validation accepts a vault_x whose address (5)
is not the derived vault address, and the swap then executes against it —
so it is not the case that every instruction consuming vaults recomputes
and compares the vault addresses. -/
theorem C3_counterexample :
    vaultBadAddr.address ≠
      deriveVault configAcct.address tokenProgAcct.address cfgEx.mint_x ∧
    SwapAccounts.tryFrom swapBadVaultList =
      .ok ⟨userEx, userXAcct, userYAcct, vaultBadAddr, vaultYAcct, configAcct,
           tokenProgAcct⟩ ∧
    Swap.run 0 (sPayload 1 10000 9871 0) swapBadVaultList =
      .ok [.transfer userXAcct.address vaultBadAddr.address userEx.address 9970,
           .transfer vaultYAcct.address userYAcct.address configAcct.address 9871] :=
  ⟨by decide, by rfl, by rfl⟩

/-- C3 amended: Deposit and Withdraw validation recompute each vault
address from (config address, token-program address, mint address) and
compare byte-exact — success implies the supplied vault addresses equal
the derivations — while Swap validation performs no vault-address
derivation at all: its outcome is unchanged under arbitrary vault
addresses. -/
theorem C3_vault_derivation :
    (∀ u lp vx vy ax ay alp c tp r,
      DepositAccounts.tryFrom [u, lp, vx, vy, ax, ay, alp, c, tp] = .ok r →
      vx.address = deriveVault c.address tp.address c.cfg.mint_x ∧
      vy.address = deriveVault c.address tp.address c.cfg.mint_y) ∧
    (∀ u lp vx vy ax ay alp c tp r,
      WithdrawAccounts.tryFrom [u, lp, vx, vy, ax, ay, alp, c, tp] = .ok r →
      vx.address = deriveVault c.address tp.address c.cfg.mint_x ∧
      vy.address = deriveVault c.address tp.address c.cfg.mint_y) ∧
    (∀ u ax ay vx vy c tp addrX addrY,
      outcome (SwapAccounts.tryFrom
        [u, ax, ay, { vx with address := addrX }, { vy with address := addrY },
         c, tp]) =
      outcome (SwapAccounts.tryFrom [u, ax, ay, vx, vy, c, tp])) := by
  refine ⟨fun u lp vx vy ax ay alp c tp r h => ?_,
          fun u lp vx vy ax ay alp c tp r h => ?_,
          fun u ax ay vx vy c tp addrX addrY => ?_⟩
  · unfold DepositAccounts.tryFrom at h
    cases hc : Config.load c <;> simp only [hc] at h
    · simp only [ite_eq_iff, err_ne_ok, false_and, and_false, or_false, false_or] at h
    · rename_i cfg
      obtain ⟨hcfg, -, -⟩ := Config.load_ok hc
      subst hcfg
      simp only [ite_eq_iff, err_ne_ok, false_and, and_false, or_false, false_or] at h
      exact ⟨by omega, by omega⟩
  · unfold WithdrawAccounts.tryFrom at h
    cases hc : Config.load c <;> simp only [hc] at h
    · simp only [ite_eq_iff, err_ne_ok, false_and, and_false, or_false, false_or] at h
    · rename_i cfg
      obtain ⟨hcfg, -, -⟩ := Config.load_ok hc
      subst hcfg
      simp only [ite_eq_iff, err_ne_ok, false_and, and_false, or_false, false_or] at h
      exact ⟨by omega, by omega⟩
  · simp only [SwapAccounts.tryFrom]
    simp only [outcome_ite, outcome_ok, outcome_error]

/-- C3 witness: a concrete successful Deposit validation, whose vault
addresses therefore equal the derivations. -/
theorem C3_vault_derivation_witness :
    vaultXAcct.address =
      deriveVault configAcct.address tokenProgAcct.address cfgEx.mint_x ∧
    vaultYAcct.address =
      deriveVault configAcct.address tokenProgAcct.address cfgEx.mint_y := by
  exact C3_vault_derivation.1 userEx mintLpAcct vaultXAcct vaultYAcct userXAcct
    userYAcct userLpAcct configAcct tokenProgAcct
    ⟨userEx, mintLpAcct, vaultXAcct, vaultYAcct, userXAcct, userYAcct, userLpAcct,
     configAcct, tokenProgAcct⟩ (by rfl)

/-- C4 counterexample: Deposit validation accepts a user_x_ata with data
length 3 and owner 999 — so it is not the case that every instruction
validates the shape of every token-balance account it consumes. -/
theorem C4_counterexample :
    ataBadShape.dataLen ≠ tokenAccountLen ∧
    ataBadShape.owner ≠ tokenProgramID ∧
    DepositAccounts.tryFrom depositBadShapeList =
      .ok ⟨userEx, mintLpAcct, vaultXAcct, vaultYAcct, ataBadShape, userYAcct,
           userLpAcct, configAcct, tokenProgAcct⟩ :=
  ⟨by decide, by decide, by rfl⟩

/-- C4 amended: Withdraw and Swap validation require every token-balance
account they consume to have the canonical record length and be owned by
the token program (success implies all the shape facts), while Deposit
validation reads nothing of mint_lp or the user token accounts and only
the addresses of the vaults: its outcome is unchanged when those accounts
are replaced arbitrarily, provided the signer flag, token-program address
and vault addresses are kept. -/
theorem C4_token_account_shapes :
    (∀ u lp vx vy ax ay alp c tp r,
      WithdrawAccounts.tryFrom [u, lp, vx, vy, ax, ay, alp, c, tp] = .ok r →
      (lp.dataLen = mintLen ∧ lp.owner = tokenProgramID) ∧
      (vx.dataLen = tokenAccountLen ∧ vx.owner = tokenProgramID) ∧
      (vy.dataLen = tokenAccountLen ∧ vy.owner = tokenProgramID) ∧
      (ax.dataLen = tokenAccountLen ∧ ax.owner = tokenProgramID) ∧
      (ay.dataLen = tokenAccountLen ∧ ay.owner = tokenProgramID) ∧
      (alp.dataLen = tokenAccountLen ∧ alp.owner = tokenProgramID)) ∧
    (∀ u ax ay vx vy c tp r,
      SwapAccounts.tryFrom [u, ax, ay, vx, vy, c, tp] = .ok r →
      (ax.dataLen = tokenAccountLen ∧ ax.owner = tokenProgramID) ∧
      (ay.dataLen = tokenAccountLen ∧ ay.owner = tokenProgramID) ∧
      (vx.dataLen = tokenAccountLen ∧ vx.owner = tokenProgramID) ∧
      (vy.dataLen = tokenAccountLen ∧ vy.owner = tokenProgramID)) ∧
    (∀ u u' lp lp' vx vx' vy vy' ax ax' ay ay' alp alp' c tp tp' : AccountView,
      u.isSigner = u'.isSigner → tp.address = tp'.address →
      vx.address = vx'.address → vy.address = vy'.address →
      outcome (DepositAccounts.tryFrom [u', lp', vx', vy', ax', ay', alp', c, tp']) =
      outcome (DepositAccounts.tryFrom [u, lp, vx, vy, ax, ay, alp, c, tp])) := by
  refine ⟨fun u lp vx vy ax ay alp c tp r h => ?_,
          fun u ax ay vx vy c tp r h => ?_,
          fun u u' lp lp' vx vx' vy vy' ax ax' ay ay' alp alp' c tp tp'
            h1 h2 h3 h4 => ?_⟩
  · unfold WithdrawAccounts.tryFrom at h
    cases hc : Config.load c <;> simp only [hc] at h
    · simp only [ite_eq_iff, err_ne_ok, false_and, and_false, or_false, false_or] at h
    · simp only [ite_eq_iff, err_ne_ok, false_and, and_false, or_false, false_or] at h
      refine ⟨⟨by omega, by omega⟩, ⟨by omega, by omega⟩, ⟨by omega, by omega⟩,
              ⟨by omega, by omega⟩, ⟨by omega, by omega⟩, ⟨by omega, by omega⟩⟩
  · unfold SwapAccounts.tryFrom at h
    simp only [ite_eq_iff, err_ne_ok, false_and, and_false, or_false, false_or] at h
    refine ⟨⟨by omega, by omega⟩, ⟨by omega, by omega⟩,
            ⟨by omega, by omega⟩, ⟨by omega, by omega⟩⟩
  · simp only [DepositAccounts.tryFrom]
    rw [h1, h2, h3, h4]
    cases hc : Config.load c <;>
      simp only [hc, outcome_ite, outcome_ok, outcome_error]

/-- C4 witness: a concrete successful Withdraw validation certifying the
shape of all six token-balance accounts it consumes. -/
theorem C4_token_account_shapes_witness :
    mintLpAcct.dataLen = mintLen ∧ mintLpAcct.owner = tokenProgramID ∧
    vaultXAcct.dataLen = tokenAccountLen ∧ vaultXAcct.owner = tokenProgramID ∧
    userLpAcct.dataLen = tokenAccountLen ∧ userLpAcct.owner = tokenProgramID := by
  have h := C4_token_account_shapes.1 userEx mintLpAcct vaultXAcct vaultYAcct
    userXAcct userYAcct userLpAcct configAcct tokenProgAcct
    ⟨userEx, mintLpAcct, vaultXAcct, vaultYAcct, userXAcct, userYAcct, userLpAcct,
     configAcct, tokenProgAcct⟩ (by rfl)
  exact ⟨h.1.1, h.1.2, h.2.1.1, h.2.1.2, h.2.2.2.2.2.1, h.2.2.2.2.2.2⟩

/-- C5 counterexample: Initialize does not gate on the pool state — run
over a config record in state Uninitialized (≠ Initialized) it succeeds
instead of failing with the state error, because `set_inner`
unconditionally overwrites the state. -/
theorem C5_counterexample :
    (⟨0, 0, 0, 0, 0, 0, 0⟩ : Config).state ≠ AmmStateActive ∧
    initPoolProcess 1 50 70 ⟨0, 0, 0, 0, 0, 0, 0⟩ ⟨9, 30, 7, 8, 254, 253, 0⟩ =
      .ok (⟨1, 9, 0, 7, 8, 30, 254⟩,
        [.createAccount 1 50 configLen crateID,
         .createAccount 1 70 mintLen tokenProgramID,
         .initMint 70 6 50]) := ⟨by decide, by rfl⟩

/-- C5 amended: Deposit and Swap fail with the state error
(`InvalidAccountData`) whenever `PoolConfig.state ≠ Initialized`;
Initialize never reads the prior state (its result is unchanged under any
prior state value, since `set_inner` overwrites it); and Withdraw does not
gate on state: its account validation outcome and its execution effects
are unchanged under any stored state value (its payload decoding and its
quote take no config input at all, by their types). -/
theorem C5_state_gate :
    (∀ now data accounts a d cfg,
      DepositAccounts.tryFrom accounts = .ok a →
      DepositInstructionData.tryFrom now data = .ok d →
      Config.load a.config = .ok cfg → cfg.state ≠ AmmStateActive →
      Deposit.tryFrom now data accounts = .error .InvalidAccountData) ∧
    (∀ (a : SwapAccounts) (d : SwapInstructionData) (cfg : Config),
      Config.load a.config = .ok cfg → cfg.state ≠ AmmStateActive →
      Swap.process a d = .error .InvalidAccountData) ∧
    (∀ (i c m : Nat) (prior : Config) (s : Nat) (d : InitPoolData),
      initPoolProcess i c m { prior with state := s } d =
      initPoolProcess i c m prior d) ∧
    (∀ u lp vx vy ax ay alp c tp s,
      outcome (WithdrawAccounts.tryFrom [u, lp, vx, vy, ax, ay, alp,
        { c with cfg := { c.cfg with state := s } }, tp]) =
      outcome (WithdrawAccounts.tryFrom [u, lp, vx, vy, ax, ay, alp, c, tp])) ∧
    (∀ (a : WithdrawAccounts) (d : WithdrawInstructionData) (s : Nat),
      Withdraw.process
        { a with config := { a.config with cfg := { a.config.cfg with state := s } } } d =
      Withdraw.process a d) := by
  refine ⟨fun now data accounts a d cfg h1 h2 h3 h4 => ?_,
          fun a d cfg h3 h4 => ?_,
          fun i c m prior s d => rfl,
          fun u lp vx vy ax ay alp c tp s => ?_,
          fun a d s => ?_⟩
  · unfold Deposit.tryFrom
    simp only [h1, h2, h3]
    rw [if_pos h4]
  · unfold Swap.process
    simp only [h3]
    rw [if_pos h4]
  · simp only [WithdrawAccounts.tryFrom, Config.load_state]
    cases hc : Config.load c <;>
      simp only [hc, Except.map, outcome_ite, outcome_ok, outcome_error]
  · simp only [Withdraw.process]
    rw [Config.load_state]
    cases hq : withdrawQuoteP a.vault_x.tokenAmount a.vault_y.tokenAmount
        a.mint_lp.mintSupply d.amount <;>
      cases hl : Config.load a.config <;>
      simp only [hq, hl, Except.map]

/-- C5 witness: with the pool Disabled, a fully valid Deposit fails at the
state gate, and Swap's processing fails at its state gate. -/
theorem C5_state_gate_witness :
    Deposit.tryFrom 0 (payload32 5 10 20 0) depositDisabledList =
      .error .InvalidAccountData ∧
    Swap.process ⟨userEx, userXAcct, userYAcct, vaultXAcct, vaultYAcct,
      configDisabledAcct, tokenProgAcct⟩ ⟨true, 10000, 9871, 0⟩ =
      .error .InvalidAccountData := by
  refine ⟨C5_state_gate.1 0 (payload32 5 10 20 0) depositDisabledList
      ⟨userEx, mintLpAcct, vaultXAcct, vaultYAcct, userXAcct, userYAcct, userLpAcct,
       configDisabledAcct, tokenProgAcct⟩ ⟨5, 10, 20, 0⟩
      { cfgEx with state := AmmStateDisabled }
      (by rfl) (by rfl) (by rfl) (by decide),
    C5_state_gate.2.1 ⟨userEx, userXAcct, userYAcct, vaultXAcct, vaultYAcct,
      configDisabledAcct, tokenProgAcct⟩ ⟨true, 10000, 9871, 0⟩
      { cfgEx with state := AmmStateDisabled } (by rfl) (by decide)⟩

/-- C7: a Deposit that passes validation (so its LP amount is positive and
its config loads) executes exactly: a transfer of max_x from the user's X
account to the X vault when max_x > 0 (skipped at 0), a transfer of max_y
likewise, then a mint of exactly the caller-chosen LP amount to the user —
for every combination of amount, max_x, max_y, with no check relating them
to each other or to reserves. -/
theorem C7_deposit_effects :
    ∀ (a : DepositAccounts) (d : DepositInstructionData) (cfg : Config),
      Config.load a.config = .ok cfg → 0 < d.amount →
      Deposit.process a d = .ok (
        (if 0 < d.max_x then
          [Effect.transfer a.user_x_ata.address a.vault_x.address a.user.address d.max_x]
         else []) ++
        (if 0 < d.max_y then
          [Effect.transfer a.user_y_ata.address a.vault_y.address a.user.address d.max_y]
         else []) ++
        [Effect.mintTo a.mint_lp.address a.user_lp_ata.address a.config.address
          d.amount]) := by
  intro a d cfg hl hpos
  unfold Deposit.process
  rw [if_pos hpos]
  simp only [hl]

/-- C7 witness: LP amount 55 with max_x 10 and max_y 0 transfers exactly
10 of X, skips Y, and mints exactly 55. -/
theorem C7_deposit_effects_witness :
    Deposit.process ⟨userEx, mintLpAcct, vaultXAcct, vaultYAcct, userXAcct, userYAcct,
        userLpAcct, configAcct, tokenProgAcct⟩ ⟨55, 10, 0, 0⟩ =
      .ok [Effect.transfer userXAcct.address vaultXAcct.address userEx.address 10,
           Effect.mintTo mintLpAcct.address userLpAcct.address configAcct.address 55] := by
  have h := C7_deposit_effects ⟨userEx, mintLpAcct, vaultXAcct, vaultYAcct, userXAcct,
      userYAcct, userLpAcct, configAcct, tokenProgAcct⟩ ⟨55, 10, 0, 0⟩ cfgEx
      (by rfl) (by decide)
  exact h

/-- Little-endian round trip: the byte list of a u64 value reads back to
the value. -/
theorem leBytes_le8 (n : Nat) (h : n < 18446744073709551616) :
    leBytes (le8 n) = n := by
  simp only [le8, leBytes]
  omega

/-- Reading a u64 bit pattern below 2^63 as an i64 is the identity. -/
theorem toI64_small (n : Nat) (h : n < 9223372036854775808) :
    toI64 n = (n : Int) := by
  unfold toI64
  rw [if_pos (by omega)]

/-- Length of a 32-byte payload. -/
theorem p32len (a b c d : Nat) : (payload32 a b c d).length = 32 := rfl

/-- First field of a 32-byte payload. -/
theorem p32f0 (a b c d : Nat) : leU64 (payload32 a b c d) 0 = leBytes (le8 a) := rfl

/-- Second field of a 32-byte payload. -/
theorem p32f8 (a b c d : Nat) : leU64 (payload32 a b c d) 8 = leBytes (le8 b) := rfl

/-- Third field of a 32-byte payload. -/
theorem p32f16 (a b c d : Nat) : leU64 (payload32 a b c d) 16 = leBytes (le8 c) := rfl

/-- Fourth field of a 32-byte payload. -/
theorem p32f24 (a b c d : Nat) : leU64 (payload32 a b c d) 24 = leBytes (le8 d) := rfl

/-- Length of a Swap payload. -/
theorem spLen (b a m e : Nat) : (sPayload b a m e).length = 25 := rfl

/-- Flag byte of a Swap payload. -/
theorem spf0 (b a m e : Nat) : (sPayload b a m e).getD 0 0 = b := rfl

/-- Amount field of a Swap payload. -/
theorem spf1 (b a m e : Nat) : leU64 (sPayload b a m e) 1 = leBytes (le8 a) := rfl

/-- Min field of a Swap payload. -/
theorem spf9 (b a m e : Nat) : leU64 (sPayload b a m e) 9 = leBytes (le8 m) := rfl

/-- Expiration field of a Swap payload. -/
theorem spf17 (b a m e : Nat) : leU64 (sPayload b a m e) 17 = leBytes (le8 e) := rfl

/-- C8 counterexample: a Withdraw payload with `min_x = 0` and `min_y = 0`
decodes successfully — Withdraw's slippage floors are not required to be
nonzero at decode time (refuting the claim that all applicable floors
must be nonzero). -/
theorem C8_counterexample :
    WithdrawInstructionData.tryFrom 0 (payload32 1 0 0 0) =
      .ok ⟨1, 0, 0, 0⟩ := by rfl

/-- C8 amended: decoding validates, for Deposit/Withdraw/Swap, that the
amount is nonzero, and for Swap only that `min` is nonzero — Withdraw's
`min_x`/`min_y` are read but not validated (any values, including zero,
decode successfully); a nonzero expiration fails with the expiration error
(`Custom 0`) exactly when the clock exceeds it, and expiration 0 never
expires. The three decode equations fully characterize this over the
fixed-layout payloads; the implications state the validated facts for
every successfully decoded payload. -/
theorem C8_decode_validation :
    (∀ (now : Int) (a mx my e : Nat),
      a < 18446744073709551616 → mx < 18446744073709551616 →
      my < 18446744073709551616 → e < 9223372036854775808 →
      WithdrawInstructionData.tryFrom now (payload32 a mx my e) =
        (if a = 0 then .error .InvalidArgument
         else if (e : Int) ≠ 0 ∧ now > (e : Int) then .error (.Custom 0)
         else .ok ⟨a, mx, my, (e : Int)⟩)) ∧
    (∀ (now : Int) (a mx my e : Nat),
      a < 18446744073709551616 → mx < 18446744073709551616 →
      my < 18446744073709551616 → e < 9223372036854775808 →
      DepositInstructionData.tryFrom now (payload32 a mx my e) =
        (if a = 0 then .error .InvalidArgument
         else if (e : Int) ≠ 0 ∧ now > (e : Int) then .error (.Custom 0)
         else .ok ⟨a, mx, my, (e : Int)⟩)) ∧
    (∀ (now : Int) (b a m e : Nat),
      a < 18446744073709551616 → m < 18446744073709551616 →
      e < 9223372036854775808 →
      SwapInstructionData.tryFrom now (sPayload b a m e) =
        (if (e : Int) ≠ 0 ∧ now > (e : Int) then .error (.Custom 0)
         else if a = 0 then .error .InvalidArgument
         else if m = 0 then .error .InvalidArgument
         else .ok ⟨b ≠ 0, a, m, (e : Int)⟩)) ∧
    (∀ (now : Int) (data : List Nat) (d : WithdrawInstructionData),
      WithdrawInstructionData.tryFrom now data = .ok d →
      d.amount ≠ 0 ∧ (d.expiration ≠ 0 → now ≤ d.expiration)) ∧
    (∀ (now : Int) (data : List Nat) (d : DepositInstructionData),
      DepositInstructionData.tryFrom now data = .ok d →
      d.amount ≠ 0 ∧ (d.expiration ≠ 0 → now ≤ d.expiration)) ∧
    (∀ (now : Int) (data : List Nat) (d : SwapInstructionData),
      SwapInstructionData.tryFrom now data = .ok d →
      d.amount ≠ 0 ∧ d.min ≠ 0 ∧ (d.expiration ≠ 0 → now ≤ d.expiration)) := by
  refine ⟨fun now a mx my e ha hmx hmy he => ?_,
          fun now a mx my e ha hmx hmy he => ?_,
          fun now b a m e ha hm he => ?_,
          fun now data d h => ?_, fun now data d h => ?_, fun now data d h => ?_⟩
  · unfold WithdrawInstructionData.tryFrom
    rw [if_neg (show ¬((payload32 a mx my e).length ≠ 32) from
      fun hh => hh (p32len a mx my e))]
    rw [p32f0 a mx my e, p32f8 a mx my e, p32f16 a mx my e, p32f24 a mx my e,
      leBytes_le8 _ ha, leBytes_le8 _ hmx, leBytes_le8 _ hmy,
      leBytes_le8 _ (by omega : e < 18446744073709551616), toI64_small _ he]
  · unfold DepositInstructionData.tryFrom
    rw [if_neg (show ¬((payload32 a mx my e).length ≠ 32) from
      fun hh => hh (p32len a mx my e))]
    rw [p32f0 a mx my e, p32f8 a mx my e, p32f16 a mx my e, p32f24 a mx my e,
      leBytes_le8 _ ha, leBytes_le8 _ hmx, leBytes_le8 _ hmy,
      leBytes_le8 _ (by omega : e < 18446744073709551616), toI64_small _ he]
  · unfold SwapInstructionData.tryFrom
    rw [if_neg (show ¬((sPayload b a m e).length ≠ 25) from
      fun hh => hh (spLen b a m e))]
    rw [spf0 b a m e, spf1 b a m e, spf9 b a m e, spf17 b a m e,
      leBytes_le8 _ ha, leBytes_le8 _ hm,
      leBytes_le8 _ (by omega : e < 18446744073709551616), toI64_small _ he]
  · unfold WithdrawInstructionData.tryFrom at h
    simp only [ite_eq_iff, err_ne_ok, false_and, and_false, or_false, false_or] at h
    obtain ⟨h1, h2, h3, h4⟩ := h
    injection h4 with h4
    subst h4
    refine ⟨h2, fun hne => ?_⟩
    replace hne : toI64 (leU64 data 24) ≠ 0 := hne
    show now ≤ toI64 (leU64 data 24)
    simp at h3
    omega
  · unfold DepositInstructionData.tryFrom at h
    simp only [ite_eq_iff, err_ne_ok, false_and, and_false, or_false, false_or] at h
    obtain ⟨h1, h2, h3, h4⟩ := h
    injection h4 with h4
    subst h4
    refine ⟨h2, fun hne => ?_⟩
    replace hne : toI64 (leU64 data 24) ≠ 0 := hne
    show now ≤ toI64 (leU64 data 24)
    simp at h3
    omega
  · unfold SwapInstructionData.tryFrom at h
    simp only [ite_eq_iff, err_ne_ok, false_and, and_false, or_false, false_or] at h
    obtain ⟨h1, hexp, hamt, hmin, h4⟩ := h
    injection h4 with h4
    subst h4
    refine ⟨hamt, hmin, fun hne => ?_⟩
    replace hne : toI64 (leU64 data 17) ≠ 0 := hne
    show now ≤ toI64 (leU64 data 17)
    simp at hexp
    omega

/-- C8 witness: a Withdraw payload with zero floors decodes; a Swap
payload with zero min fails; an expired Swap fails with the expiration
error; a zero-amount Deposit fails; and a successfully decoded Swap
certifies nonzero amount and min. -/
theorem C8_decode_validation_witness :
    WithdrawInstructionData.tryFrom 5 (payload32 2 0 7 0) = .ok ⟨2, 0, 7, 0⟩ ∧
    SwapInstructionData.tryFrom 0 (sPayload 1 5 0 0) = .error .InvalidArgument ∧
    SwapInstructionData.tryFrom 5 (sPayload 1 5 6 3) = .error (.Custom 0) ∧
    DepositInstructionData.tryFrom 0 (payload32 0 1 1 0) = .error .InvalidArgument ∧
    ((⟨true, 5, 6, 0⟩ : SwapInstructionData).amount ≠ 0 ∧
     (⟨true, 5, 6, 0⟩ : SwapInstructionData).min ≠ 0 ∧
     ((⟨true, 5, 6, 0⟩ : SwapInstructionData).expiration ≠ 0 →
       (0 : Int) ≤ (⟨true, 5, 6, 0⟩ : SwapInstructionData).expiration)) := by
  refine ⟨(C8_decode_validation.1 5 2 0 7 0 (by decide) (by decide) (by decide)
      (by decide)).trans (by rfl),
    (C8_decode_validation.2.2.1 0 1 5 0 0 (by decide) (by decide)
      (by decide)).trans (by rfl),
    (C8_decode_validation.2.2.1 5 1 5 6 3 (by decide) (by decide)
      (by decide)).trans (by rfl),
    (C8_decode_validation.2.1 0 0 1 1 0 (by decide) (by decide) (by decide)
      (by decide)).trans (by rfl),
    C8_decode_validation.2.2.2.2.2 0 (sPayload 1 5 6 0) ⟨true, 5, 6, 0⟩ (by rfl)⟩

end Amm
